import Mathlib

/-!
Verification of the orchestration core of the multi-agent blog-generation
pipeline (`src/agents/orchestrator_agent.py` and the collaborator agents it
drives).  Python data classes become Lean structures, Python floats become
exact rationals, raised exceptions become explicit result values, and the
string-sniffing error classification (`"rate limit" in str(e).lower()`) is
embedded over code-point lists.  Wall-clock timing and logging are abstracted
away; they carry no information used by any property below.
-/

/-! ## String helpers mirroring the Python primitives used by the source -/

/-- Does the character list `hay` start with `pat`?  Mirrors Python prefix
matching used to implement substring search. -/
def startsWithL : List Char → List Char → Bool
  | _, [] => true
  | [], _ :: _ => false
  | a :: as, b :: bs => a = b && startsWithL as bs

/-- Does the character list `hay` contain `pat` as a contiguous run?
Mirrors the Python expression `pat in hay`. -/
def containsL : List Char → List Char → Bool
  | [], pat => startsWithL [] pat
  | a :: as, pat => startsWithL (a :: as) pat || containsL as pat

/-- Python `pat in s` on strings. -/
def strContains (s pat : String) : Bool := containsL s.data pat.data

/-- Python `s.lower()` (per code point, which is what the source relies on:
its patterns are plain ASCII). -/
def lowerStr (s : String) : String := ⟨s.data.map Char.toLower⟩

/-- Python `s[:n]` slicing by code points. -/
def strTake (s : String) (n : ℕ) : String := ⟨s.data.take n⟩

/-- Python truthiness test `not s or not s.strip()` for a string: `True`
exactly when every character is whitespace (the empty string included). -/
def pyFalsyStr (s : String) : Bool := s.data.all Char.isWhitespace

/-- Token counter over a character list: counts maximal runs of
non-whitespace characters.  `inTok` records whether the previous character
was inside a token. -/
def tokenCountGo : List Char → Bool → ℕ
  | [], _ => 0
  | c :: rest, inTok =>
    if c.isWhitespace then tokenCountGo rest false
    else (if inTok then 0 else 1) + tokenCountGo rest true

/-- Python `len(s.split())`: the number of whitespace-delimited tokens. -/
def countTokens (s : String) : ℕ := tokenCountGo s.data false

/-- Python `s.split(sep)[0]` for a single-character separator: the run of
characters before the first occurrence (the whole string when absent, which
also covers the source guard `if sep in s`). -/
def splitHead (s : String) (sep : Char) : String := ⟨s.data.takeWhile (· ≠ sep)⟩

/-- Split a character list at newline characters; models Python splitting a
text into its lines. -/
def splitLinesL : List Char → List (List Char)
  | [] => [[]]
  | c :: rest =>
    if c = '\n' then [] :: splitLinesL rest
    else
      match splitLinesL rest with
      | [] => [[c]]
      | l :: ls => (c :: l) :: ls

/-- The lines of a string, as character lists. -/
def strLines (s : String) : List (List Char) := splitLinesL s.data

/-! ## Data model (`src/models/data_models.py`) -/

/-- `ResearchFinding`: individual research finding with source attribution. -/
structure ResearchFinding where
  fact : String
  source_url : String
  relevance_score : ℚ
  category : String
deriving DecidableEq, Repr

/-- `ResearchOutput`: structured output from the Research Agent. -/
structure ResearchOutput where
  topic : String
  findings : List ResearchFinding
  summary : String
  confidence_level : ℚ
deriving DecidableEq, Repr

/-- `BlogDraft`: blog post draft structure. -/
structure BlogDraft where
  title : String
  introduction : String
  body_sections : List String
  conclusion : String
  word_count : ℕ
deriving DecidableEq, Repr

/-- `CritiqueSeverity`: severity levels for critique feedback. -/
inductive CritiqueSeverity where
  | minor
  | moderate
  | major
deriving DecidableEq, Repr

/-- `CritiqueFeedback`: individual piece of feedback.  The Python field
`section` is renamed `sect` (`section` is a Lean keyword). -/
structure CritiqueFeedback where
  sect : String
  issue : String
  suggestion : String
  severity : CritiqueSeverity
deriving DecidableEq, Repr

/-- Approval status literal `"approved" | "needs_revision"`. -/
inductive ApprovalStatus where
  | approved
  | needs_revision
deriving DecidableEq, Repr

/-- `CritiqueOutput`: structured output from the Critique Agent. -/
structure CritiqueOutput where
  overall_quality : ℚ
  feedback_items : List CritiqueFeedback
  approval_status : ApprovalStatus
  summary_feedback : String
deriving DecidableEq, Repr

/-- `BlogGenerationResult` without its wall-clock `total_processing_time`
field (timing is abstracted: no property below depends on it). -/
structure BlogGenerationResult where
  final_post : BlogDraft
  research_data : ResearchOutput
  revision_count : ℕ
  quality_score : ℚ
deriving DecidableEq, Repr

/-- The dictionary returned by `OrchestratorAgent.make_revision_decision`. -/
structure RevisionDecision where
  should_revise : Bool
  reasoning : String
  quality_score : ℚ
  approval_status : ApprovalStatus
  iteration : ℕ
  max_iterations : ℕ
deriving DecidableEq, Repr

/-- `usage_tracking` dictionary initialised in `generate_blog_post`. -/
structure UsageTracking where
  research_calls : ℕ
  writing_calls : ℕ
  critique_calls : ℕ
  total_tokens : ℕ
  api_calls : ℕ
  revision_cycles : ℕ
deriving DecidableEq, Repr

/-- Numeric rendering used inside reasoning strings.  Python interpolates
floats (`f"{q:.1f}"`); the exact digits are irrelevant to every property
below (only non-emptiness and fixed English fragments matter), so the
rational is rendered with `toString`. -/
def fmtQ (q : ℚ) : String := toString q

/-! ## `OrchestratorAgent.make_revision_decision`
(`src/agents/orchestrator_agent.py`, lines 352-412) -/

/-- Faithful translation of `make_revision_decision`: an early-returning
cascade over the critique, the iteration counters and the quality
threshold. -/
def makeRevisionDecision (critique_output : CritiqueOutput)
    (current_iteration max_iterations : ℕ) (quality_threshold : ℚ) :
    RevisionDecision :=
  let decision : RevisionDecision :=
    { should_revise := false
      reasoning := ""
      quality_score := critique_output.overall_quality
      approval_status := critique_output.approval_status
      iteration := current_iteration
      max_iterations := max_iterations }
  if max_iterations ≤ current_iteration then
    { decision with reasoning :=
        "Maximum iterations (" ++ toString max_iterations ++
        ") reached. Stopping revision cycle." }
  else if critique_output.approval_status = ApprovalStatus.approved then
    { decision with reasoning := "Draft approved by critique agent." }
  else if quality_threshold ≤ critique_output.overall_quality then
    { decision with reasoning :=
        "Quality score (" ++ fmtQ critique_output.overall_quality ++
        ") meets threshold (" ++ fmtQ quality_threshold ++ ")." }
  else
    let major_issues := critique_output.feedback_items.filter
      (fun f => f.severity = CritiqueSeverity.major)
    let moderate_issues := critique_output.feedback_items.filter
      (fun f => f.severity = CritiqueSeverity.moderate)
    if major_issues ≠ [] ∧
        critique_output.overall_quality < quality_threshold - 1 then
      { decision with
          should_revise := true
          reasoning :=
            "Major issues found (" ++ toString major_issues.length ++
            ") and quality score (" ++ fmtQ critique_output.overall_quality ++
            ") significantly below threshold." }
    else if moderate_issues ≠ [] ∧
        critique_output.overall_quality < quality_threshold then
      { decision with
          should_revise := true
          reasoning :=
            "Moderate issues found (" ++ toString moderate_issues.length ++
            ") and quality score (" ++ fmtQ critique_output.overall_quality ++
            ") below threshold." }
    else if critique_output.overall_quality < quality_threshold - 2 then
      { decision with
          should_revise := true
          reasoning :=
            "Quality score (" ++ fmtQ critique_output.overall_quality ++
            ") significantly below threshold (" ++ fmtQ quality_threshold ++
            ")." }
    else
      { decision with reasoning :=
          "Quality acceptable (" ++ fmtQ critique_output.overall_quality ++
          ") despite minor issues." }

/-- The boolean outcome of the spec's seven-rule cascade (§4.2), written
from the spec's words for comparison with the source translation: first
matching rule wins, rules 1-3 stop, 4-6 revise, 7 stops. -/
def decideSpecShouldRevise (c : CritiqueOutput) (i m : ℕ) (t : ℚ) : Bool :=
  if m ≤ i then false
  else if c.approval_status = ApprovalStatus.approved then false
  else if t ≤ c.overall_quality then false
  else if (∃ f ∈ c.feedback_items, f.severity = CritiqueSeverity.major) ∧
      c.overall_quality < t - 1 then true
  else if (∃ f ∈ c.feedback_items, f.severity = CritiqueSeverity.moderate) ∧
      c.overall_quality < t then true
  else if c.overall_quality < t - 2 then true
  else false

/-! ## `OrchestratorAgent._format_feedback_for_revision`
(`src/agents/orchestrator_agent.py`, lines 414-438) -/

/-- One feedback bullet line, `f"- {f.section}: {f.issue} -> {f.suggestion}"`. -/
def feedbackLine (f : CritiqueFeedback) : String :=
  "- " ++ f.sect ++ ": " ++ f.issue ++ " -> " ++ f.suggestion

/-- Faithful translation of `_format_feedback_for_revision`: the summary
first, then severity-grouped blocks (minor truncated to the first three),
joined with newlines. -/
def formatFeedbackForRevision (critique_output : CritiqueOutput) : String :=
  let major_feedback := critique_output.feedback_items.filter
    (fun f => f.severity = CritiqueSeverity.major)
  let moderate_feedback := critique_output.feedback_items.filter
    (fun f => f.severity = CritiqueSeverity.moderate)
  let minor_feedback := critique_output.feedback_items.filter
    (fun f => f.severity = CritiqueSeverity.minor)
  let feedback_parts :=
    [critique_output.summary_feedback] ++
    (if major_feedback ≠ [] then
      "\nCRITICAL ISSUES TO ADDRESS:" :: major_feedback.map feedbackLine
    else []) ++
    (if moderate_feedback ≠ [] then
      "\nIMPORTANT IMPROVEMENTS:" :: moderate_feedback.map feedbackLine
    else []) ++
    (if minor_feedback ≠ [] then
      "\nMINOR ENHANCEMENTS:" :: (minor_feedback.take 3).map feedbackLine
    else [])
  String.intercalate "\n" feedback_parts

/-- A severity block as the spec describes it: empty when no item exists,
otherwise a header line followed by one rendered line per item. -/
def severityBlock (header : String) (items : List CritiqueFeedback) : List String :=
  match items with
  | [] => []
  | f :: rest => header :: (f :: rest).map feedbackLine

/-- The formatting rule as the spec states it (§4.2), with the bullet prefix
the source actually emits: summary first, then one block per severity in the
order major, moderate, minor; a block is a header line followed by one
bullet line per item (minor capped at the first three); empty blocks are
omitted. -/
def formatFeedbackSpec (c : CritiqueOutput) : String :=
  String.intercalate "\n"
    ([c.summary_feedback] ++
      severityBlock "\nCRITICAL ISSUES TO ADDRESS:"
        (c.feedback_items.filter (fun f => f.severity = CritiqueSeverity.major)) ++
      severityBlock "\nIMPORTANT IMPROVEMENTS:"
        (c.feedback_items.filter (fun f => f.severity = CritiqueSeverity.moderate)) ++
      severityBlock "\nMINOR ENHANCEMENTS:"
        ((c.feedback_items.filter (fun f => f.severity = CritiqueSeverity.minor)).take 3))

/-! ## Error model (`src/utils/exceptions.py` and `pydantic_ai.ModelRetry`)

Raised Python exceptions become explicit values.  `isinstance` dispatch in
the source becomes dispatch on `kind`; `str(e)` becomes `msg`.  Exceptions
originating outside the repository (the generative-model layer, network
libraries) are never instances of the repository's classes and carry kind
`externalErr`. -/

/-- Exception classes distinguished by the orchestrator's handlers. -/
inductive PyErrorKind where
  | externalErr
  | modelRetry
  | validationErr
  | researchErr
  | writingErr
  | critiqueErr
  | orchestrationErr
deriving DecidableEq, Repr

/-- A raised exception: its class and its `str(e)` text. -/
structure PyError where
  kind : PyErrorKind
  msg : String
deriving DecidableEq, Repr

/-- The source's retryability sniff `"rate limit" in str(e).lower() or
"timeout" in str(e).lower()`. -/
def isRetryableMsg (msg : String) : Bool :=
  strContains (lowerStr msg) "rate limit" || strContains (lowerStr msg) "timeout"

/-- Outcome of a delegate tool call as seen by the orchestration loop:
a returned value, a raised `ModelRetry`, or a propagated exception. -/
inductive CallResult (α : Type) where
  | ok (value : α)
  | retry (msg : String)
  | raised (e : PyError)
deriving DecidableEq, Repr

/-! ## Research collaborator (`src/agents/research_agent.py`) and its
delegate (`src/agents/orchestrator_agent.py`, lines 174-225) -/

/-- `ResearchAgent.research_topic`: the model call either yields a
`ResearchOutput` or raises; the agent converts retryable messages to
`ModelRetry` and re-raises anything else unwrapped (the agent never
constructs repository error classes). -/
def researchTopic (agentRun : Except String ResearchOutput) :
    Except PyError ResearchOutput :=
  match agentRun with
  | .ok r => .ok r
  | .error msg =>
    if isRetryableMsg msg then
      .error ⟨.modelRetry, "Research failed due to API issues: " ++ msg⟩
    else
      .error ⟨.externalErr, msg⟩

/-- The minimal degraded research result substituted by
`delegate_research`. -/
def minimalResearch (topic emsg : String) : ResearchOutput :=
  { topic := topic
    findings := []
    summary := "Limited research available for " ++ topic ++
      " due to technical issues: " ++ strTake emsg 100
    confidence_level := 0.1 }

/-- Exception ladder of `OrchestratorAgent.delegate_research`: retryable
messages re-raise `ModelRetry`, `ResearchError` instances re-raise as-is,
anything else degrades to `minimalResearch`. -/
def delegateResearch (topic : String) (call : Except PyError ResearchOutput) :
    CallResult ResearchOutput :=
  match call with
  | .ok r => .ok r
  | .error e =>
    if strContains (lowerStr e.msg) "rate limit" then
      .retry ("Research delegation failed due to rate limiting: " ++ e.msg)
    else if strContains (lowerStr e.msg) "timeout" then
      .retry ("Research delegation timed out: " ++ e.msg)
    else if e.kind = .researchErr then
      .raised e
    else
      .ok (minimalResearch topic e.msg)

/-! ## Writing collaborator (`src/agents/writing_agent.py`) and its
delegate (`src/agents/orchestrator_agent.py`, lines 227-294) -/

/-- `f"{title} {introduction} {' '.join(body_sections)} {conclusion}"`:
the final text over which the writing agent recomputes `word_count`. -/
def allText (d : BlogDraft) : String :=
  d.title ++ " " ++ d.introduction ++ " " ++
    String.intercalate " " d.body_sections ++ " " ++ d.conclusion

/-- The conclusion synthesised by the writing agent when the generative
step omitted one. -/
def synthesizedConclusion (title : String) : String :=
  "In conclusion, " ++
    (if strContains title ":" then splitHead title ':' else title) ++
    " offers significant benefits worth considering. As we\x27ve explored in this article, the evidence supports incorporating this practice into your routine for optimal results."

/-- Post-generation repair in `WritingAgent.create_blog_draft`: reject
drafts missing mandatory sections, synthesise a missing conclusion, then
recompute `word_count` from the final text. -/
def finalizeDraft (draft : BlogDraft) : Except PyError BlogDraft :=
  if draft.title = "" ∨ draft.introduction = "" ∨ draft.body_sections = [] then
    .error ⟨.validationErr, "Generated draft is missing required sections"⟩
  else
    let d1 :=
      if draft.conclusion = "" then
        { draft with conclusion := synthesizedConclusion draft.title }
      else draft
    .ok { d1 with word_count := countTokens (allText d1) }

/-- Exception ladder of `WritingAgent.create_blog_draft`: retryable
messages become `ModelRetry`, `ValidationError` re-raises, anything else is
wrapped into a `WritingError`. -/
def writingCreateLadder (topic : String) (e : PyError) : PyError :=
  if isRetryableMsg e.msg then
    ⟨.modelRetry, "Writing failed due to API issues: " ++ e.msg⟩
  else if e.kind = .validationErr then e
  else
    ⟨.writingErr, "Failed to create blog draft for topic \x27" ++ topic ++
      "\x27: " ++ e.msg⟩

/-- `WritingAgent.create_blog_draft`: topic validation, then the model
call, then `finalizeDraft`, with every raise funnelled through the
function's own exception ladder. -/
def createBlogDraft (topic : String) (agentRun : Except String BlogDraft) :
    Except PyError BlogDraft :=
  if pyFalsyStr topic then
    .error ⟨.validationErr, "Topic cannot be empty"⟩
  else
    let body : Except PyError BlogDraft :=
      match agentRun with
      | .error msg => .error ⟨.externalErr, msg⟩
      | .ok draft => finalizeDraft draft
    match body with
    | .ok d => .ok d
    | .error e => .error (writingCreateLadder topic e)

/-- Post-generation repair in `WritingAgent.revise_blog_draft`: as for the
initial draft, except a missing conclusion falls back to the original
draft's conclusion when that one is non-empty. -/
def finalizeRevision (original revised : BlogDraft) : Except PyError BlogDraft :=
  if revised.title = "" ∨ revised.introduction = "" ∨ revised.body_sections = [] then
    .error ⟨.validationErr, "Revised draft is missing required sections"⟩
  else
    let d1 :=
      if revised.conclusion = "" then
        if original.conclusion ≠ "" then
          { revised with conclusion := original.conclusion }
        else
          { revised with conclusion := synthesizedConclusion revised.title }
      else revised
    .ok { d1 with word_count := countTokens (allText d1) }

/-- Exception ladder of `WritingAgent.revise_blog_draft`. -/
def writingReviseLadder (original_title : String) (e : PyError) : PyError :=
  if isRetryableMsg e.msg then
    ⟨.modelRetry, "Revision failed due to API issues: " ++ e.msg⟩
  else if e.kind = .validationErr then e
  else
    ⟨.writingErr, "Failed to revise blog draft \x27" ++ original_title ++
      "\x27: " ++ e.msg⟩

/-- `WritingAgent.revise_blog_draft`: feedback validation, the model call,
then `finalizeRevision`, funnelled through the revise exception ladder. -/
def reviseBlogDraft (original : BlogDraft) (feedback : String)
    (agentRun : Except String BlogDraft) : Except PyError BlogDraft :=
  if pyFalsyStr feedback then
    .error ⟨.validationErr, "Feedback cannot be empty"⟩
  else
    let body : Except PyError BlogDraft :=
      match agentRun with
      | .error msg => .error ⟨.externalErr, msg⟩
      | .ok draft => finalizeRevision original draft
    match body with
    | .ok d => .ok d
    | .error e => .error (writingReviseLadder original.title e)

/-- The minimal degraded draft substituted by `delegate_writing`.  Its
`word_count` is the hard-coded literal `50`. -/
def minimalDraft (topic emsg : String) : BlogDraft :=
  { title := "Blog Post: " ++ topic
    introduction := "This article explores " ++ topic ++ ". " ++ strTake emsg 100
    body_sections := ["Content about " ++ topic ++
      " will be added here due to technical limitations."]
    conclusion := "In conclusion, " ++ topic ++
      " is an important topic that requires further exploration."
    word_count := 50 }

/-- Exception ladder of `OrchestratorAgent.delegate_writing`: retryable
messages re-raise `ModelRetry`, `WritingError` instances re-raise as-is,
anything else degrades to `minimalDraft`. -/
def delegateWriting (topic : String) (call : Except PyError BlogDraft) :
    CallResult BlogDraft :=
  match call with
  | .ok d => .ok d
  | .error e =>
    if strContains (lowerStr e.msg) "rate limit" then
      .retry ("Writing delegation failed due to rate limiting: " ++ e.msg)
    else if strContains (lowerStr e.msg) "timeout" then
      .retry ("Writing delegation timed out: " ++ e.msg)
    else if e.kind = .writingErr then
      .raised e
    else
      .ok (minimalDraft topic e.msg)

/-! ## Critique collaborator (`src/agents/critique_agent.py`) and its
delegate (`src/agents/orchestrator_agent.py`, lines 296-350) -/

/-- `CritiqueAgent.critique_blog_draft`: converts retryable messages to
`ModelRetry` and re-raises anything else unwrapped (the agent never
constructs repository error classes). -/
def critiqueBlogDraft (agentRun : Except String CritiqueOutput) :
    Except PyError CritiqueOutput :=
  match agentRun with
  | .ok c => .ok c
  | .error msg =>
    if isRetryableMsg msg then
      .error ⟨.modelRetry, "Critique failed due to API issues: " ++ msg⟩
    else
      .error ⟨.externalErr, msg⟩

/-- The minimal degraded critique substituted by `delegate_critique`. -/
def minimalCritique (emsg : String) : CritiqueOutput :=
  { overall_quality := 6
    feedback_items := []
    approval_status := .approved
    summary_feedback := "Unable to provide detailed critique due to technical issues: " ++
      strTake emsg 100 }

/-- Exception ladder of `OrchestratorAgent.delegate_critique`: retryable
messages re-raise `ModelRetry`, `CritiqueError` instances re-raise as-is,
anything else degrades to `minimalCritique`. -/
def delegateCritique (call : Except PyError CritiqueOutput) :
    CallResult CritiqueOutput :=
  match call with
  | .ok c => .ok c
  | .error e =>
    if strContains (lowerStr e.msg) "rate limit" then
      .retry ("Critique delegation failed due to rate limiting: " ++ e.msg)
    else if strContains (lowerStr e.msg) "timeout" then
      .retry ("Critique delegation timed out: " ++ e.msg)
    else if e.kind = .critiqueErr then
      .raised e
    else
      .ok (minimalCritique e.msg)

/-! ## Top-level error handler of `generate_blog_post`
(`src/agents/orchestrator_agent.py`, lines 145-172) -/

/-- How a `generate_blog_post` invocation ends: a result, a raised
`ModelRetry`, or a raised classified exception. -/
inductive WorkflowExit where
  | completed (result : BlogGenerationResult)
  | raisedRetry (msg : String)
  | raisedError (e : PyError)
deriving DecidableEq, Repr

/-- Phase label extracted from the agent error class name
(`e.__class__.__name__.replace("Error", "").lower()`). -/
def phaseName (k : PyErrorKind) : String :=
  match k with
  | .researchErr => "research"
  | .writingErr => "writing"
  | .critiqueErr => "critique"
  | _ => ""

/-- The `except` ladder closing `generate_blog_post`: retryable messages
raise `ModelRetry`; agent errors are wrapped into `OrchestrationError`;
`ValidationError` and `OrchestrationError` re-raise as-is; everything else
is wrapped into `OrchestrationError`. -/
def handleWorkflowError (topic : String) (e : PyError) : WorkflowExit :=
  if isRetryableMsg e.msg then
    .raisedRetry ("Orchestration failed due to API issues: " ++ e.msg)
  else if e.kind = .researchErr ∨ e.kind = .writingErr ∨ e.kind = .critiqueErr then
    .raisedError ⟨.orchestrationErr,
      "Blog generation failed during " ++ phaseName e.kind ++ " phase: " ++ e.msg⟩
  else if e.kind = .validationErr ∨ e.kind = .orchestrationErr then
    .raisedError e
  else
    .raisedError ⟨.orchestrationErr,
      "Blog generation failed for topic \x27" ++ topic ++ "\x27: " ++ e.msg⟩

/-! ## Usage-tracking updates performed by the delegates -/

/-- `delegate_research` counter increments (performed before the call). -/
def incResearchCall (u : UsageTracking) : UsageTracking :=
  { u with research_calls := u.research_calls + 1, api_calls := u.api_calls + 1 }

/-- `delegate_writing` counter increments (performed before the call). -/
def incWritingCall (u : UsageTracking) : UsageTracking :=
  { u with writing_calls := u.writing_calls + 1, api_calls := u.api_calls + 1 }

/-- `delegate_critique` counter increments (performed before the call). -/
def incCritiqueCall (u : UsageTracking) : UsageTracking :=
  { u with critique_calls := u.critique_calls + 1, api_calls := u.api_calls + 1 }

/-- Token estimate added after a successful research call:
`len(summary.split()) * 2`. -/
def addResearchTokens (u : UsageTracking) (r : ResearchOutput) : UsageTracking :=
  { u with total_tokens := u.total_tokens + countTokens r.summary * 2 }

/-- Token estimate added after a successful writing call: token count of the
draft's combined text, doubled. -/
def addWritingTokens (u : UsageTracking) (d : BlogDraft) : UsageTracking :=
  { u with total_tokens := u.total_tokens + countTokens (allText d) * 2 }

/-- Token estimate added after a successful critique call:
`len(" ".join(issue + " " + suggestion).split()) * 2`. -/
def addCritiqueTokens (u : UsageTracking) (c : CritiqueOutput) : UsageTracking :=
  { u with total_tokens := u.total_tokens +
      countTokens (String.intercalate " "
        (c.feedback_items.map (fun f => f.issue ++ " " ++ f.suggestion))) * 2 }

/-! ## The orchestration workflow -/

/-- The externally supplied behaviour of one workflow run: the topic, the
orchestrator configuration flags, and the outcome of each underlying
generative-model call (`Except.error` is a raised exception's message).
`critiqueRun`/`reviseRun` are indexed by the iteration at which the call is
made. -/
structure WorkflowInputs where
  topic : String
  agentsProvided : Bool
  researchRun : Except String ResearchOutput
  initialWriteRun : Except String BlogDraft
  critiqueRun : ℕ → Except String CritiqueOutput
  reviseRun : ℕ → Except String BlogDraft

/-- Modelled from the spec: the critique-revise cycle of §4.1 step 4.  The
concrete loop in `generate_blog_post` is delegated to the language-model
agent by prompt (`self.agent.run` with numbered instructions) and is not
present as code under `src/`; its body here follows the spec's algorithm
while every step it invokes (`delegateCritique`, `makeRevisionDecision`,
`formatFeedbackForRevision`, `reviseBlogDraft`, `delegateWriting`, the
usage-counter updates) is translated from the source.  `fuel` is a
structural-recursion bound only; starting from `fuel = m + 1` at iteration
`1` it is provably never exhausted, because decision rule 1 stops every
iteration with `m ≤ i`. -/
def revisionCycle (w : WorkflowInputs) (m : ℕ) (t : ℚ) :
    ℕ → ℕ → ℕ → BlogDraft → ResearchOutput → UsageTracking →
    WorkflowExit × UsageTracking
  | 0, _, _, _, _, u =>
    (.raisedError ⟨.orchestrationErr, "unreachable: iteration fuel exhausted"⟩, u)
  | fuel + 1, i, revs, draft, research, u =>
    let u1 := incCritiqueCall u
    match delegateCritique (critiqueBlogDraft (w.critiqueRun i)) with
    | .retry msg => (.raisedRetry msg, u1)
    | .raised e => (handleWorkflowError w.topic e, u1)
    | .ok critique =>
      let u2 := addCritiqueTokens u1 critique
      let decision := makeRevisionDecision critique i m t
      if decision.should_revise then
        let feedback := formatFeedbackForRevision critique
        let u3 := incWritingCall u2
        match delegateWriting research.topic
            (reviseBlogDraft draft feedback (w.reviseRun i)) with
        | .retry msg => (.raisedRetry msg, u3)
        | .raised e => (handleWorkflowError w.topic e, u3)
        | .ok newDraft =>
          revisionCycle w m t fuel (i + 1) (revs + 1) newDraft research
            { addWritingTokens u3 newDraft with
                revision_cycles := u3.revision_cycles + 1 }
      else
        (.completed
          { final_post := draft
            research_data := research
            revision_count := revs
            quality_score := critique.overall_quality }, u2)

/-- Modelled from the spec: one full `generate_blog_post` run (§4.1).  The
input validation, the delegate exception ladders, the degraded substitutes
and the closing error handler are translated from the source; the
sequencing research → initial draft → critique-revise cycle → result
assembly follows the spec's algorithm, because in the source that
sequencing is carried out by the prompted language-model agent rather than
by code. -/
def generateBlogPost (w : WorkflowInputs) (m : ℕ) (t : ℚ) :
    WorkflowExit × UsageTracking :=
  let u0 : UsageTracking := ⟨0, 0, 0, 0, 0, 0⟩
  if pyFalsyStr w.topic then
    (.raisedError ⟨.validationErr, "Topic cannot be empty"⟩, u0)
  else if ¬ w.agentsProvided then
    (.raisedError ⟨.validationErr, "All agents must be provided"⟩, u0)
  else
    let u1 := incResearchCall u0
    match delegateResearch w.topic (researchTopic w.researchRun) with
    | .retry msg => (.raisedRetry msg, u1)
    | .raised e => (handleWorkflowError w.topic e, u1)
    | .ok research =>
      let u2 := addResearchTokens u1 research
      let u3 := incWritingCall u2
      match delegateWriting research.topic
          (createBlogDraft research.topic w.initialWriteRun) with
      | .retry msg => (.raisedRetry msg, u3)
      | .raised e => (handleWorkflowError w.topic e, u3)
      | .ok draft =>
        revisionCycle w m t (m + 1) 1 0 draft research (addWritingTokens u3 draft)


/-! ## Helper lemmas -/

/-- A severity filter is non-empty iff an item of that severity exists. -/
theorem filter_sev_ne_nil_iff (l : List CritiqueFeedback) (s : CritiqueSeverity) :
    (l.filter (fun f => f.severity = s) ≠ []) ↔ ∃ f ∈ l, f.severity = s := by
  simp [List.filter_eq_nil_iff]

/-- Appending to a non-empty string yields a non-empty string. -/
theorem append_ne_empty_left (a b : String) (h : a ≠ "") : a ++ b ≠ "" := by
  intro hc
  apply h
  have hd := congrArg String.data hc
  simp [String.data_append] at hd
  exact String.ext hd.1

/-- The boolean outcome of the source cascade agrees with the spec's
seven-rule cascade on every input. -/
theorem shouldRevise_eq_spec (c : CritiqueOutput) (i m : ℕ) (t : ℚ) :
    (makeRevisionDecision c i m t).should_revise = decideSpecShouldRevise c i m t := by
  simp only [makeRevisionDecision, decideSpecShouldRevise,
    ne_eq, filter_sev_ne_nil_iff]
  split_ifs <;> rfl

/-- Rule 1 of the decision cascade: at or past the iteration cap, the
decision is never to revise. -/
theorem makeRevisionDecision_stops_at_cap (c : CritiqueOutput) (i m : ℕ)
    (t : ℚ) (h : m ≤ i) : (makeRevisionDecision c i m t).should_revise = false := by
  simp [makeRevisionDecision, h]

/-- Rule 2 of the decision cascade: an approved critique never triggers a
revision. -/
theorem makeRevisionDecision_approved_stops (c : CritiqueOutput) (i m : ℕ)
    (t : ℚ) (h : c.approval_status = ApprovalStatus.approved) :
    (makeRevisionDecision c i m t).should_revise = false := by
  by_cases hcap : m ≤ i
  · exact makeRevisionDecision_stops_at_cap c i m t hcap
  · simp [makeRevisionDecision, hcap, h]

/-- A revise decision can only be issued strictly below the iteration cap. -/
theorem makeRevisionDecision_revise_lt (c : CritiqueOutput) (i m : ℕ) (t : ℚ)
    (h : (makeRevisionDecision c i m t).should_revise = true) : i < m := by
  by_contra hlt
  rw [makeRevisionDecision_stops_at_cap c i m t (Nat.le_of_not_lt hlt)] at h
  exact Bool.false_ne_true h

/-- Every branch of the decision cascade writes a non-empty reasoning
string. -/
theorem makeRevisionDecision_reasoning_ne (c : CritiqueOutput) (i m : ℕ)
    (t : ℚ) : (makeRevisionDecision c i m t).reasoning ≠ "" := by
  simp only [makeRevisionDecision]
  split_ifs <;> (repeat' apply append_ne_empty_left) <;>
    first
      | decide
      | (show "Draft approved by critique agent." ≠ ""
         decide)

/-! ## Claim theorems: the revision decision policy -/

/-- The spec's max-iteration boundary example: needs revision, quality 3.0,
one major feedback item. -/
def boundaryCritique : CritiqueOutput :=
  { overall_quality := 3
    feedback_items := [⟨"body", "weak evidence", "add sources", CritiqueSeverity.major⟩]
    approval_status := .needs_revision
    summary_feedback := "needs work" }

/-- Claim C1: `make_revision_decision` evaluates its seven rules in the
spec's fixed order with the first matching rule winning — its boolean
outcome coincides with the spec's ordered cascade on every input — and on
the boundary example (needs_revision, quality 3.0, one major item, i=3,
m=3, t=7.0) it returns `should_revise = false` with reasoning mentioning
maximum iterations: rule 1 pre-empts rule 4. -/
theorem revision_decision_rule_order :
    (∀ c i m t, (makeRevisionDecision c i m t).should_revise =
      decideSpecShouldRevise c i m t) ∧
    (makeRevisionDecision boundaryCritique 3 3 7).should_revise = false ∧
    strContains (makeRevisionDecision boundaryCritique 3 3 7).reasoning
      "Maximum iterations" = true :=
  ⟨shouldRevise_eq_spec, by decide, by decide⟩

/-- The workflow state visible to `make_revision_decision` when it runs as
an orchestrator tool: the function's body reads only its own arguments and
builds a fresh dictionary, so the embedded tool call returns the
surrounding usage-tracking state untouched. -/
def makeRevisionDecisionTool (u : UsageTracking) (c : CritiqueOutput)
    (i m : ℕ) (t : ℚ) : RevisionDecision × UsageTracking :=
  (makeRevisionDecision c i m t, u)

/-- Claim C9: the revision decision is deterministic and side-effect free:
two invocations with equal inputs yield equal decisions (same
`should_revise` and same reasoning text) regardless of the surrounding
workflow state, and an invocation leaves that state unchanged. -/
theorem revision_decision_deterministic (u₁ u₂ : UsageTracking)
    (c₁ c₂ : CritiqueOutput) (i₁ i₂ m₁ m₂ : ℕ) (t₁ t₂ : ℚ)
    (hc : c₁ = c₂) (hi : i₁ = i₂) (hm : m₁ = m₂) (ht : t₁ = t₂) :
    (makeRevisionDecisionTool u₁ c₁ i₁ m₁ t₁).1 =
      (makeRevisionDecisionTool u₂ c₂ i₂ m₂ t₂).1 ∧
    (makeRevisionDecisionTool u₁ c₁ i₁ m₁ t₁).2 = u₁ := by
  subst hc hi hm ht
  exact ⟨rfl, rfl⟩

/-- Witness for C9 at concrete inputs and two distinct surrounding states. -/
theorem revision_decision_deterministic_witness :
    (makeRevisionDecisionTool ⟨1, 2, 3, 4, 5, 6⟩ boundaryCritique 1 3 7).1 =
      (makeRevisionDecisionTool ⟨0, 0, 0, 0, 0, 0⟩ boundaryCritique 1 3 7).1 ∧
    (makeRevisionDecisionTool ⟨1, 2, 3, 4, 5, 6⟩ boundaryCritique 1 3 7).2 =
      ⟨1, 2, 3, 4, 5, 6⟩ :=
  revision_decision_deterministic ⟨1, 2, 3, 4, 5, 6⟩ ⟨0, 0, 0, 0, 0, 0⟩
    boundaryCritique boundaryCritique 1 1 3 3 7 7 rfl rfl rfl rfl

/-- Claim C10: whenever the decision is to revise, all of the following
hold: the iteration is strictly below the cap, the critique was not
approved, its quality is strictly below the threshold, and either a major
or moderate feedback item exists or the quality is below threshold − 2.0;
moreover the reasoning string is non-empty on every branch of the
cascade. -/
theorem revision_decision_invariant (c : CritiqueOutput) (i m : ℕ) (t : ℚ)
    (h : (makeRevisionDecision c i m t).should_revise = true) :
    (i < m ∧ c.approval_status ≠ ApprovalStatus.approved ∧
      c.overall_quality < t ∧
      ((∃ f ∈ c.feedback_items,
          f.severity = CritiqueSeverity.major ∨
          f.severity = CritiqueSeverity.moderate) ∨
        c.overall_quality < t - 2)) ∧
    ∀ c' i' m' t', (makeRevisionDecision c' i' m' t').reasoning ≠ "" := by
  refine ⟨?_, fun c' i' m' t' => makeRevisionDecision_reasoning_ne c' i' m' t'⟩
  rw [shouldRevise_eq_spec] at h
  simp only [decideSpecShouldRevise] at h
  split_ifs at h with h1 h2 h3 h4 h5 h6
  · refine ⟨Nat.lt_of_not_le h1, h2, ?_, ?_⟩
    · linarith [h4.2]
    · exact Or.inl (h4.1.imp fun f hf => ⟨hf.1, Or.inl hf.2⟩)
  · exact ⟨Nat.lt_of_not_le h1, h2, h5.2,
      Or.inl (h5.1.imp fun f hf => ⟨hf.1, Or.inr hf.2⟩)⟩
  · refine ⟨Nat.lt_of_not_le h1, h2, by linarith, Or.inr h6⟩

/-- Witness for C10 at a concrete revise-triggering input: needs_revision,
quality 3, one moderate item, i=1, m=3, t=7 (rule 5 fires). -/
theorem revision_decision_invariant_witness :
    (makeRevisionDecision
        ⟨3, [⟨"intro", "flat opening", "add a hook", CritiqueSeverity.moderate⟩],
          .needs_revision, "needs work"⟩ 1 3 7).should_revise = true ∧
    ((1 < 3 ∧
      (⟨3, [⟨"intro", "flat opening", "add a hook", CritiqueSeverity.moderate⟩],
          .needs_revision, "needs work"⟩ : CritiqueOutput).approval_status ≠
        ApprovalStatus.approved ∧
      (3 : ℚ) < 7 ∧
      ((∃ f ∈ [(⟨"intro", "flat opening", "add a hook",
            CritiqueSeverity.moderate⟩ : CritiqueFeedback)],
          f.severity = CritiqueSeverity.major ∨
          f.severity = CritiqueSeverity.moderate) ∨
        (3 : ℚ) < 7 - 2)) ∧
    ∀ c' i' m' t', (makeRevisionDecision c' i' m' t').reasoning ≠ "") :=
  ⟨by decide,
    revision_decision_invariant
      ⟨3, [⟨"intro", "flat opening", "add a hook", CritiqueSeverity.moderate⟩],
        .needs_revision, "needs work"⟩ 1 3 7 (by decide)⟩

/-! ## Claim theorems: feedback formatting -/

/-- An `if`-guarded feedback block equals the spec's severity block. -/
theorem if_block_eq (hdr : String) (items : List CritiqueFeedback) :
    (if items ≠ [] then hdr :: items.map feedbackLine else []) =
      severityBlock hdr items := by
  cases items <;> simp [severityBlock]

/-- An `if`-guarded truncated feedback block equals the spec's severity
block over the truncated list. -/
theorem if_block_take_eq (hdr : String) (items : List CritiqueFeedback) :
    (if items ≠ [] then hdr :: (items.take 3).map feedbackLine else []) =
      severityBlock hdr (items.take 3) := by
  cases items <;> simp [severityBlock]

/-- The line format the claim quotes for a feedback item, without the
bullet prefix the source actually emits. -/
def claimedLine (f : CritiqueFeedback) : String :=
  f.sect ++ ": " ++ f.issue ++ " -> " ++ f.suggestion

/-- Concrete critique with a single major feedback item, used to exhibit
the bullet prefix on rendered feedback lines. -/
def bulletCritique : CritiqueOutput :=
  { overall_quality := 5
    feedback_items := [⟨"Intro", "vague claim", "cite a source", CritiqueSeverity.major⟩]
    approval_status := .needs_revision
    summary_feedback := "Solid start" }

/-- Claim C8 counterexample: for a critique with one major item, no line of
the formatted feedback equals the claimed form
`"<section>: <issue> -> <suggestion>"`; the item's line carries a leading
`"- "` bullet. -/
theorem feedback_line_form_counterexample :
    ((strLines (formatFeedbackForRevision bulletCritique)).any
      (fun l => l = (claimedLine
        ⟨"Intro", "vague claim", "cite a source", CritiqueSeverity.major⟩).data)) = false ∧
    ((strLines (formatFeedbackForRevision bulletCritique)).any
      (fun l => l = ("- " ++ claimedLine
        ⟨"Intro", "vague claim", "cite a source", CritiqueSeverity.major⟩).data)) = true := by
  constructor <;> decide

/-- Claim C8 (amended: each item line carries a leading `"- "` bullet):
the formatted feedback begins with the critique's summary and groups items
by severity into blocks ordered major, moderate, minor, rendering each item
as `"- <section>: <issue> -> <suggestion>"`, keeping all major and moderate
items, capping minor items at the first three, and omitting empty blocks —
the source formatter coincides with that rule on every critique. -/
theorem feedback_formatting :
    ∀ c, formatFeedbackForRevision c = formatFeedbackSpec c := by
  intro c
  simp only [formatFeedbackForRevision, formatFeedbackSpec,
    if_block_eq, if_block_take_eq]

/-! ## Claim theorems: draft word counts -/

/-- Claim C5 (amended: the degraded minimal-draft substitute is excluded —
it hard-codes `word_count = 50`): every draft returned by initial draft
finalisation or revision finalisation has `word_count` equal to the
whitespace-token count of `title + introduction + body_sections +
conclusion`, and recomputing the count on the final text is stable: writing
it back leaves the draft unchanged. -/
theorem word_count_recomputed :
    (∀ raw d, finalizeDraft raw = Except.ok d →
      d.word_count = countTokens (allText d) ∧
      { d with word_count := countTokens (allText d) } = d) ∧
    (∀ orig raw d, finalizeRevision orig raw = Except.ok d →
      d.word_count = countTokens (allText d) ∧
      { d with word_count := countTokens (allText d) } = d) := by
  constructor
  · intro raw d h
    simp only [finalizeDraft] at h
    split at h
    · exact absurd h (by simp)
    · injection h with h'
      subst h'
      exact ⟨rfl, rfl⟩
  · intro orig raw d h
    simp only [finalizeRevision] at h
    split at h
    · exact absurd h (by simp)
    · injection h with h'
      subst h'
      exact ⟨rfl, rfl⟩

/-- Witness for C5 at concrete drafts: the finaliser overwrites a reported
word count of 999 with the recomputed 4, for both the initial and the
revision path. -/
theorem word_count_recomputed_witness :
    ((⟨"T", "I", ["B"], "C", 4⟩ : BlogDraft).word_count =
        countTokens (allText ⟨"T", "I", ["B"], "C", 4⟩) ∧
      { (⟨"T", "I", ["B"], "C", 4⟩ : BlogDraft) with
          word_count := countTokens (allText ⟨"T", "I", ["B"], "C", 4⟩) } =
        ⟨"T", "I", ["B"], "C", 4⟩) ∧
    ((⟨"T2", "I2", ["B2"], "C2", 4⟩ : BlogDraft).word_count =
        countTokens (allText ⟨"T2", "I2", ["B2"], "C2", 4⟩) ∧
      { (⟨"T2", "I2", ["B2"], "C2", 4⟩ : BlogDraft) with
          word_count := countTokens (allText ⟨"T2", "I2", ["B2"], "C2", 4⟩) } =
        ⟨"T2", "I2", ["B2"], "C2", 4⟩) :=
  ⟨word_count_recomputed.1 ⟨"T", "I", ["B"], "C", 999⟩ _ rfl,
    word_count_recomputed.2 ⟨"X", "Y", ["Z"], "W", 7⟩
      ⟨"T2", "I2", ["B2"], "C2", 999⟩ _ rfl⟩

set_option maxRecDepth 4000 in
/-- Claim C5 counterexample: the degraded minimal-draft substitute returned
by `delegate_writing` for a generic failure carries the hard-coded
`word_count = 50`, while its actual whitespace-token count is 30. -/
theorem word_count_counterexample :
    delegateWriting "x" (Except.error ⟨.externalErr, "err"⟩) =
      .ok (minimalDraft "x" "err") ∧
    (minimalDraft "x" "err").word_count = 50 ∧
    countTokens (allText (minimalDraft "x" "err")) = 30 := by
  refine ⟨by decide, rfl, by decide⟩

/-! ## Claim theorems: input validation -/

/-- Is a workflow exit a raised `ValidationError`? -/
def isValidationExit : WorkflowExit → Bool
  | .raisedError e => e.kind = .validationErr
  | _ => false

/-- `delegate_research` only propagates `ResearchError` instances. -/
theorem delegateResearch_raised_kind (topic : String)
    (call : Except PyError ResearchOutput) (e : PyError)
    (h : delegateResearch topic call = .raised e) : e.kind = .researchErr := by
  cases call with
  | ok r => simp [delegateResearch] at h
  | error e0 =>
    simp only [delegateResearch] at h
    split_ifs at h with h1 h2 h3 <;> simp_all

/-- `delegate_writing` only propagates `WritingError` instances. -/
theorem delegateWriting_raised_kind (topic : String)
    (call : Except PyError BlogDraft) (e : PyError)
    (h : delegateWriting topic call = .raised e) : e.kind = .writingErr := by
  cases call with
  | ok d => simp [delegateWriting] at h
  | error e0 =>
    simp only [delegateWriting] at h
    split_ifs at h with h1 h2 h3 <;> simp_all

/-- `delegate_critique` only propagates `CritiqueError` instances. -/
theorem delegateCritique_raised_kind
    (call : Except PyError CritiqueOutput) (e : PyError)
    (h : delegateCritique call = .raised e) : e.kind = .critiqueErr := by
  cases call with
  | ok c => simp [delegateCritique] at h
  | error e0 =>
    simp only [delegateCritique] at h
    split_ifs at h with h1 h2 h3 <;> simp_all

/-- The closing error handler never surfaces a `ValidationError` unless it
was handed one. -/
theorem handleWorkflowError_no_validation (topic : String) (e : PyError)
    (hk : e.kind ≠ .validationErr) :
    isValidationExit (handleWorkflowError topic e) = false := by
  simp only [handleWorkflowError]
  split_ifs <;> simp [isValidationExit, hk]

/-- The critique-revise cycle never exits with a raised `ValidationError`. -/
theorem revisionCycle_no_validation (w : WorkflowInputs) (m : ℕ) (t : ℚ) :
    ∀ fuel i revs d r u,
      isValidationExit (revisionCycle w m t fuel i revs d r u).1 = false := by
  intro fuel
  induction fuel with
  | zero => intro i revs d r u; rfl
  | succ n ih =>
    intro i revs d r u
    rw [revisionCycle]
    cases hcrit : delegateCritique (critiqueBlogDraft (w.critiqueRun i)) with
    | retry msg => rfl
    | raised e =>
      have hk := delegateCritique_raised_kind _ _ hcrit
      exact handleWorkflowError_no_validation _ _ (by simp [hk])
    | ok critique =>
      by_cases hrev : (makeRevisionDecision critique i m t).should_revise
      · simp only [hrev, if_true]
        cases hw : delegateWriting r.topic
            (reviseBlogDraft d (formatFeedbackForRevision critique)
              (w.reviseRun i)) with
        | retry msg => rfl
        | raised e =>
          have hk := delegateWriting_raised_kind _ _ _ hw
          exact handleWorkflowError_no_validation _ _ (by simp [hk])
        | ok newDraft => exact ih _ _ _ _ _
      · simp only [hrev, if_false]
        rfl

/-- Research result used by concrete workflow runs in witnesses. -/
def okResearch : ResearchOutput := ⟨"ai", [], "basic facts", 1⟩

/-- Raw model draft used by concrete workflow runs in witnesses. -/
def okDraftRaw : BlogDraft := ⟨"T", "I", ["B"], "C", 0⟩

/-- Approving critique used by concrete workflow runs in witnesses. -/
def okCritiqueApproved : CritiqueOutput := ⟨8, [], .approved, "fine"⟩

/-- A fully successful set of collaborator outcomes for topic `"ai"`. -/
def validInputs : WorkflowInputs :=
  { topic := "ai"
    agentsProvided := true
    researchRun := .ok okResearch
    initialWriteRun := .ok okDraftRaw
    critiqueRun := fun _ => .ok okCritiqueApproved
    reviseRun := fun _ => .ok okDraftRaw }

/-- Off the validation branches, a run never exits with a raised
`ValidationError`: every later raise site wraps into retry or
orchestration kinds. -/
theorem generateBlogPost_no_validation_main (w : WorkflowInputs) (m : ℕ)
    (t : ℚ) (ht : pyFalsyStr w.topic = false) (ha : w.agentsProvided = true) :
    isValidationExit (generateBlogPost w m t).1 = false := by
  rw [generateBlogPost]
  rw [if_neg (by rw [ht]; simp)]
  rw [if_neg (by rw [ha]; simp)]
  cases hres : delegateResearch w.topic (researchTopic w.researchRun) with
  | retry msg => rfl
  | raised e =>
    exact handleWorkflowError_no_validation _ _
      (by simp [delegateResearch_raised_kind _ _ _ hres])
  | ok research =>
    dsimp only
    cases hw : delegateWriting research.topic
        (createBlogDraft research.topic w.initialWriteRun) with
    | retry msg => rfl
    | raised e =>
      exact handleWorkflowError_no_validation _ _
        (by simp [delegateWriting_raised_kind _ _ _ hw])
    | ok draft => exact revisionCycle_no_validation w m t _ _ _ _ _ _

/-- Claim C6 (amended: `max_iterations` is not validated): a run raises
`ValidationError` exactly when the topic is empty or whitespace-only or a
collaborator handle is missing, and in that case it does so before any
collaborator call: every usage counter is still zero. -/
theorem validation_exact (w : WorkflowInputs) (m : ℕ) (t : ℚ) :
    (isValidationExit (generateBlogPost w m t).1 = true ↔
      (pyFalsyStr w.topic = true ∨ w.agentsProvided = false)) ∧
    ((pyFalsyStr w.topic = true ∨ w.agentsProvided = false) →
      (generateBlogPost w m t).2 = ⟨0, 0, 0, 0, 0, 0⟩) := by
  by_cases ht : pyFalsyStr w.topic = true
  · exact ⟨by simp [generateBlogPost, ht, isValidationExit],
      fun _ => by simp [generateBlogPost, ht]⟩
  · have ht' : pyFalsyStr w.topic = false := by
      cases hb : pyFalsyStr w.topic
      · rfl
      · exact absurd hb ht
    by_cases ha : w.agentsProvided = true
    · constructor
      · rw [generateBlogPost_no_validation_main w m t ht' ha]
        simp [ht', ha]
      · intro hpre
        rcases hpre with hpre | hpre
        · exact absurd hpre ht
        · rw [ha] at hpre
          exact absurd hpre (by simp)
    · have ha' : w.agentsProvided = false := by
        cases hb : w.agentsProvided
        · rfl
        · exact absurd hb ha
      exact ⟨by simp [generateBlogPost, ht', ha', isValidationExit],
        fun _ => by simp [generateBlogPost, ht', ha']⟩

/-- Inputs identical to `validInputs` but with an empty topic. -/
def emptyTopicInputs : WorkflowInputs :=
  { validInputs with topic := "" }

/-- Witness for C6: with an empty topic the run raises `ValidationError`
with all usage counters still zero. -/
theorem validation_exact_witness :
    isValidationExit (generateBlogPost emptyTopicInputs 3 7).1 = true ∧
    (generateBlogPost emptyTopicInputs 3 7).2 = ⟨0, 0, 0, 0, 0, 0⟩ :=
  ⟨(validation_exact emptyTopicInputs 3 7).1.mpr (Or.inl (by decide)),
    (validation_exact emptyTopicInputs 3 7).2 (Or.inl (by decide))⟩

set_option maxRecDepth 4000 in
/-- Claim C6 counterexample: with a valid topic, all collaborators present
and `max_iterations = 0 < 1`, the run completes normally instead of raising
`ValidationError` — the precondition `max_iterations ≥ 1` is not checked. -/
theorem validation_counterexample :
    (generateBlogPost validInputs 0 7).1 =
      .completed ⟨⟨"T", "I", ["B"], "C", 4⟩, okResearch, 0, 8⟩ ∧
    isValidationExit (generateBlogPost validInputs 0 7).1 = false ∧
    (0 : ℕ) < 1 := by
  refine ⟨by decide, by decide, by decide⟩

/-! ## Claim theorems: error surface of `generate_blog_post` -/

/-- The three documented ways out of `generate_blog_post`: a result, a
`ModelRetry`, or a raised error that is a `ValidationError` or an
`OrchestrationError`. -/
def exitClassified : WorkflowExit → Prop
  | .completed _ => True
  | .raisedRetry _ => True
  | .raisedError e => e.kind = .validationErr ∨ e.kind = .orchestrationErr

/-- Whatever exception reaches the closing handler, what it raises is
classified. -/
theorem handleWorkflowError_classified (topic : String) (e : PyError) :
    exitClassified (handleWorkflowError topic e) := by
  simp only [handleWorkflowError]
  split_ifs with h1 h2 h3
  · trivial
  · exact Or.inr rfl
  · exact h3
  · exact Or.inr rfl

/-- Every exit of the critique-revise cycle is classified. -/
theorem revisionCycle_classified (w : WorkflowInputs) (m : ℕ) (t : ℚ) :
    ∀ fuel i revs d r u,
      exitClassified (revisionCycle w m t fuel i revs d r u).1 := by
  intro fuel
  induction fuel with
  | zero => intro i revs d r u; exact Or.inr rfl
  | succ n ih =>
    intro i revs d r u
    rw [revisionCycle]
    cases hcrit : delegateCritique (critiqueBlogDraft (w.critiqueRun i)) with
    | retry msg => trivial
    | raised e => exact handleWorkflowError_classified _ _
    | ok critique =>
      by_cases hrev : (makeRevisionDecision critique i m t).should_revise
      · simp only [hrev, if_true]
        cases hw : delegateWriting r.topic
            (reviseBlogDraft d (formatFeedbackForRevision critique)
              (w.reviseRun i)) with
        | retry msg => trivial
        | raised e => exact handleWorkflowError_classified _ _
        | ok newDraft => exact ih _ _ _ _ _
      · simp only [hrev, if_false]
        trivial

/-- Claim C3 (amended): every run exits as a result, a `ModelRetry`, a
`ValidationError` or an `OrchestrationError` — never an unclassified
exception; but not every non-retryable, non-validation collaborator failure
is substituted at the point of call: a generic failure inside the writing
collaborator is wrapped into a `WritingError`, which the writing delegate
re-raises instead of degrading. -/
theorem error_surface_classified :
    (∀ w m t, exitClassified (generateBlogPost w m t).1) ∧
    (∀ topic msg,
      pyFalsyStr topic = false →
      isRetryableMsg msg = false →
      isRetryableMsg ("Failed to create blog draft for topic \x27" ++ topic ++
        "\x27: " ++ msg) = false →
      delegateWriting topic (createBlogDraft topic (.error msg)) =
        .raised ⟨.writingErr, "Failed to create blog draft for topic \x27" ++
          topic ++ "\x27: " ++ msg⟩) := by
  constructor
  · intro w m t
    rw [generateBlogPost]
    by_cases ht : pyFalsyStr w.topic = true
    · simp only [ht, if_true]
      exact Or.inl rfl
    · rw [if_neg (by rw [Bool.not_eq_true] at ht; rw [ht]; simp)]
      by_cases ha : w.agentsProvided = true
      · rw [if_neg (by rw [ha]; simp)]
        cases hres : delegateResearch w.topic (researchTopic w.researchRun) with
        | retry msg => trivial
        | raised e => exact handleWorkflowError_classified _ _
        | ok research =>
          dsimp only
          cases hw : delegateWriting research.topic
              (createBlogDraft research.topic w.initialWriteRun) with
          | retry msg => trivial
          | raised e => exact handleWorkflowError_classified _ _
          | ok draft => exact revisionCycle_classified w m t _ _ _ _ _ _
      · rw [if_pos (by rw [Bool.not_eq_true] at ha; rw [ha]; simp)]
        exact Or.inl rfl
  · intro topic msg ht hnr hnw
    simp only [createBlogDraft, ht, Bool.false_eq_true, if_false,
      writingCreateLadder, hnr]
    simp only [isRetryableMsg, Bool.or_eq_false_iff] at hnw
    simp [delegateWriting, hnw.1, hnw.2]

/-- Witness for C3 at a concrete generic writing failure. -/
theorem error_surface_classified_witness :
    exitClassified (generateBlogPost validInputs 3 7).1 ∧
    delegateWriting "ai" (createBlogDraft "ai" (.error "boom")) =
      .raised ⟨.writingErr,
        "Failed to create blog draft for topic \x27ai\x27: boom"⟩ :=
  ⟨error_surface_classified.1 validInputs 3 7,
    error_surface_classified.2 "ai" "boom" (by decide) (by decide) (by decide)⟩

/-- Inputs whose initial writing call fails with a generic exception. -/
def writeFailInputs : WorkflowInputs :=
  { validInputs with initialWriteRun := .error "the model backend exploded" }

set_option maxRecDepth 8000 in
/-- Claim C3 counterexample: a generic, non-retryable, non-validation
failure in the writing collaborator is not replaced by the degraded
substitute — it aborts the run, propagating out of `generate_blog_post`
wrapped as an `OrchestrationError`. -/
theorem error_surface_counterexample :
    (generateBlogPost writeFailInputs 3 7).1 =
      .raisedError ⟨.orchestrationErr,
        "Blog generation failed during writing phase: Failed to create blog draft for topic \x27ai\x27: the model backend exploded"⟩ := by
  decide

/-! ## Claim theorems: graceful degradation of research and critique -/

/-- The closing handler never fabricates a completed result. -/
theorem handleWorkflowError_ne_completed (topic : String) (e : PyError)
    (res : BlogGenerationResult) :
    handleWorkflowError topic e ≠ .completed res := by
  simp only [handleWorkflowError]
  split_ifs <;> simp

/-- A non-retryable generic research failure is degraded by
`delegate_research` to the minimal research result. -/
theorem delegateResearch_degrades (topic msg : String)
    (hnr : isRetryableMsg msg = false) :
    delegateResearch topic (researchTopic (.error msg)) =
      .ok (minimalResearch topic msg) := by
  simp only [researchTopic, hnr, Bool.false_eq_true, if_false]
  simp only [isRetryableMsg, Bool.or_eq_false_iff] at hnr
  simp [delegateResearch, hnr.1, hnr.2]

/-- A non-retryable generic critique failure is degraded by
`delegate_critique` to the minimal critique. -/
theorem delegateCritique_degrades (msg : String)
    (hnr : isRetryableMsg msg = false) :
    delegateCritique (critiqueBlogDraft (.error msg)) =
      .ok (minimalCritique msg) := by
  simp only [critiqueBlogDraft, hnr, Bool.false_eq_true, if_false]
  simp only [isRetryableMsg, Bool.or_eq_false_iff] at hnr
  simp [delegateCritique, hnr.1, hnr.2]

/-- A completed revision cycle hands back exactly the research result it
was given. -/
theorem revisionCycle_research_preserved (w : WorkflowInputs) (m : ℕ) (t : ℚ) :
    ∀ fuel i revs d r u res u',
      revisionCycle w m t fuel i revs d r u = (.completed res, u') →
      res.research_data = r := by
  intro fuel
  induction fuel with
  | zero =>
    intro i revs d r u res u' h
    rw [revisionCycle] at h
    exact absurd h (by simp)
  | succ n ih =>
    intro i revs d r u res u' h
    rw [revisionCycle] at h
    cases hcrit : delegateCritique (critiqueBlogDraft (w.critiqueRun i)) with
    | retry msg =>
      rw [hcrit] at h
      exact absurd h (by simp)
    | raised e =>
      rw [hcrit] at h
      simp only [Prod.mk.injEq] at h
      exact absurd h.1 (handleWorkflowError_ne_completed _ _ _)
    | ok critique =>
      rw [hcrit] at h
      dsimp only at h
      by_cases hrev : (makeRevisionDecision critique i m t).should_revise
      · rw [if_pos hrev] at h
        cases hw : delegateWriting r.topic
            (reviseBlogDraft d (formatFeedbackForRevision critique)
              (w.reviseRun i)) with
        | retry msg =>
          rw [hw] at h
          exact absurd h (by simp)
        | raised e =>
          rw [hw] at h
          simp only [Prod.mk.injEq] at h
          exact absurd h.1 (handleWorkflowError_ne_completed _ _ _)
        | ok newDraft =>
          rw [hw] at h
          exact ih _ _ _ _ _ _ _ h
      · rw [if_neg hrev] at h
        simp only [Prod.mk.injEq, WorkflowExit.completed.injEq] at h
        rw [← h.1]

/-- Claim C4: every non-retryable failure raised by the research
collaborator (whose own failures are raised unwrapped, never as repository
error classes) is degraded at the delegate into the minimal research
result — empty findings, confidence 0.1, a summary naming the degradation
and its cause — and a run that completes after such a failure carries
exactly those degraded values in `research_data`. -/
theorem research_failure_degrades :
    (∀ topic msg, isRetryableMsg msg = false →
      delegateResearch topic (researchTopic (.error msg)) =
        .ok (minimalResearch topic msg) ∧
      (minimalResearch topic msg).findings = [] ∧
      (minimalResearch topic msg).confidence_level = 0.1 ∧
      (minimalResearch topic msg).summary =
        "Limited research available for " ++ topic ++
          " due to technical issues: " ++ strTake msg 100) ∧
    (∀ w m t msg res u', w.researchRun = .error msg →
      isRetryableMsg msg = false →
      generateBlogPost w m t = (.completed res, u') →
      res.research_data = minimalResearch w.topic msg) := by
  constructor
  · intro topic msg hnr
    exact ⟨delegateResearch_degrades topic msg hnr, rfl, rfl, rfl⟩
  · intro w m t msg res u' hw_r hnr h
    rw [generateBlogPost] at h
    by_cases ht : pyFalsyStr w.topic = true
    · rw [if_pos ht] at h
      exact absurd h (by simp)
    · rw [if_neg (by rw [Bool.not_eq_true] at ht; rw [ht]; simp)] at h
      by_cases ha : w.agentsProvided = true
      · rw [if_neg (by rw [ha]; simp)] at h
        rw [hw_r, delegateResearch_degrades w.topic msg hnr] at h
        dsimp only at h
        cases hw : delegateWriting (minimalResearch w.topic msg).topic
            (createBlogDraft (minimalResearch w.topic msg).topic
              w.initialWriteRun) with
        | retry msg2 =>
          rw [hw] at h
          exact absurd h (by simp)
        | raised e =>
          rw [hw] at h
          simp only [Prod.mk.injEq] at h
          exact absurd h.1 (handleWorkflowError_ne_completed _ _ _)
        | ok draft =>
          rw [hw] at h
          exact revisionCycle_research_preserved w m t _ _ _ _ _ _ _ _ h
      · rw [if_pos (by rw [Bool.not_eq_true] at ha; rw [ha]; simp)] at h
        exact absurd h (by simp)

/-- Inputs whose research call fails with a generic exception. -/
def researchFailInputs : WorkflowInputs :=
  { validInputs with researchRun := .error "search backbone down" }

/-- Witness for C4: with the research call failing generically, the
delegate substitutes the minimal result and the concrete run completes
carrying it. -/
theorem research_failure_degrades_witness :
    delegateResearch "ai" (researchTopic (.error "search backbone down")) =
      .ok (minimalResearch "ai" "search backbone down") ∧
    (⟨⟨"T", "I", ["B"], "C", 4⟩, minimalResearch "ai" "search backbone down",
        0, 8⟩ : BlogGenerationResult).research_data =
      minimalResearch "ai" "search backbone down" :=
  ⟨(research_failure_degrades.1 "ai" "search backbone down" (by decide)).1,
    research_failure_degrades.2 researchFailInputs 3 7 "search backbone down"
      ⟨⟨"T", "I", ["B"], "C", 4⟩, minimalResearch "ai" "search backbone down",
        0, 8⟩ ⟨1, 1, 1, 32, 3, 0⟩ rfl (by decide) rfl⟩

/-- Claim C7: every non-retryable failure raised by the critique
collaborator (whose own failures are raised unwrapped, never as repository
error classes) is degraded by `delegate_critique` into the minimal
critique — quality 6.0, no feedback, approved — and a cycle iteration whose
critique call fails that way therefore stops at once with a terminal
result scoring 6.0. -/
theorem critique_failure_degrades :
    (∀ msg, isRetryableMsg msg = false →
      delegateCritique (critiqueBlogDraft (.error msg)) =
        .ok (minimalCritique msg) ∧
      (minimalCritique msg).overall_quality = 6 ∧
      (minimalCritique msg).feedback_items = [] ∧
      (minimalCritique msg).approval_status = .approved) ∧
    (∀ w m t msg fuel i revs d r u, w.critiqueRun i = .error msg →
      isRetryableMsg msg = false →
      (revisionCycle w m t (fuel + 1) i revs d r u).1 =
        .completed ⟨d, r, revs, 6⟩) := by
  constructor
  · intro msg hnr
    exact ⟨delegateCritique_degrades msg hnr, rfl, rfl, rfl⟩
  · intro w m t msg fuel i revs d r u hc hnr
    rw [revisionCycle, hc, delegateCritique_degrades msg hnr]
    dsimp only
    rw [if_neg (by
      rw [makeRevisionDecision_approved_stops (minimalCritique msg) i m t rfl]
      simp)]
    rfl

/-- Witness for C7 at a concrete non-retryable critique failure inside a
concrete cycle state. -/
theorem critique_failure_degrades_witness :
    delegateCritique (critiqueBlogDraft (.error "parser crashed")) =
      .ok (minimalCritique "parser crashed") ∧
    (revisionCycle { validInputs with critiqueRun := fun _ => .error "parser crashed" }
        3 7 1 1 0 ⟨"T", "I", ["B"], "C", 4⟩ okResearch ⟨1, 1, 0, 8, 2, 0⟩).1 =
      .completed ⟨⟨"T", "I", ["B"], "C", 4⟩, okResearch, 0, 6⟩ :=
  ⟨(critique_failure_degrades.1 "parser crashed" (by decide)).1,
    critique_failure_degrades.2
      { validInputs with critiqueRun := fun _ => .error "parser crashed" }
      3 7 "parser crashed" 0 1 0 ⟨"T", "I", ["B"], "C", 4⟩ okResearch
      ⟨1, 1, 0, 8, 2, 0⟩ rfl (by decide)⟩

/-! ## Claim theorems: termination bound of the revision cycle -/

/-- A completed revision cycle performs at most `m - i` further revisions:
rule 1 of the decision cascade blocks any revision at or past the cap. -/
theorem revisionCycle_revs_le (w : WorkflowInputs) (m : ℕ) (t : ℚ) :
    ∀ fuel i revs d r u res u',
      revisionCycle w m t fuel i revs d r u = (.completed res, u') →
      res.revision_count ≤ revs + (m - i) := by
  intro fuel
  induction fuel with
  | zero =>
    intro i revs d r u res u' h
    rw [revisionCycle] at h
    exact absurd h (by simp)
  | succ n ih =>
    intro i revs d r u res u' h
    rw [revisionCycle] at h
    cases hcrit : delegateCritique (critiqueBlogDraft (w.critiqueRun i)) with
    | retry msg =>
      rw [hcrit] at h
      exact absurd h (by simp)
    | raised e =>
      rw [hcrit] at h
      simp only [Prod.mk.injEq] at h
      exact absurd h.1 (handleWorkflowError_ne_completed _ _ _)
    | ok critique =>
      rw [hcrit] at h
      dsimp only at h
      by_cases hrev : (makeRevisionDecision critique i m t).should_revise
      · have hlt : i < m := makeRevisionDecision_revise_lt critique i m t hrev
        rw [if_pos hrev] at h
        cases hw : delegateWriting r.topic
            (reviseBlogDraft d (formatFeedbackForRevision critique)
              (w.reviseRun i)) with
        | retry msg =>
          rw [hw] at h
          exact absurd h (by simp)
        | raised e =>
          rw [hw] at h
          simp only [Prod.mk.injEq] at h
          exact absurd h.1 (handleWorkflowError_ne_completed _ _ _)
        | ok newDraft =>
          rw [hw] at h
          have hb := ih _ _ _ _ _ _ _ h
          omega
      · rw [if_neg hrev] at h
        simp only [Prod.mk.injEq, WorkflowExit.completed.injEq] at h
        rw [← h.1]
        exact Nat.le_add_right revs (m - i)

/-- The revision cycle performs at most `m - i` further writing calls,
whatever way it exits. -/
theorem revisionCycle_writes_le (w : WorkflowInputs) (m : ℕ) (t : ℚ) :
    ∀ fuel i revs d r u,
      ((revisionCycle w m t fuel i revs d r u).2).writing_calls ≤
        u.writing_calls + (m - i) := by
  intro fuel
  induction fuel with
  | zero =>
    intro i revs d r u
    rw [revisionCycle]
    exact Nat.le_add_right _ _
  | succ n ih =>
    intro i revs d r u
    rw [revisionCycle]
    cases hcrit : delegateCritique (critiqueBlogDraft (w.critiqueRun i)) with
    | retry msg => simp [incCritiqueCall]
    | raised e => simp [incCritiqueCall]
    | ok critique =>
      dsimp only
      by_cases hrev : (makeRevisionDecision critique i m t).should_revise
      · have hlt : i < m := makeRevisionDecision_revise_lt critique i m t hrev
        rw [if_pos hrev]
        cases hw : delegateWriting r.topic
            (reviseBlogDraft d (formatFeedbackForRevision critique)
              (w.reviseRun i)) with
        | retry msg =>
          simp only [incWritingCall, addCritiqueTokens, incCritiqueCall]
          omega
        | raised e =>
          simp only [incWritingCall, addCritiqueTokens, incCritiqueCall]
          omega
        | ok newDraft =>
          have hb := ih (i + 1) (revs + 1) newDraft r
            { addWritingTokens
                (incWritingCall (addCritiqueTokens (incCritiqueCall u) critique))
                newDraft with
              revision_cycles :=
                (incWritingCall (addCritiqueTokens (incCritiqueCall u) critique)).revision_cycles + 1 }
          simp only [addWritingTokens, incWritingCall, addCritiqueTokens,
            incCritiqueCall] at hb ⊢
          omega
      · rw [if_neg hrev]
        simp [addCritiqueTokens, incCritiqueCall]

/-- Claim C2: for a valid configuration with `m ≥ 1`, the decision function
refuses to revise at or past the cap, so a completed run performs at most
`m - 1` revisions and every run makes at most `m` writing calls. -/
theorem workflow_iteration_bound (w : WorkflowInputs) (m : ℕ) (t : ℚ)
    (hm : 1 ≤ m) :
    (∀ c i t', m ≤ i → (makeRevisionDecision c i m t').should_revise = false) ∧
    (∀ res u', generateBlogPost w m t = (.completed res, u') →
      res.revision_count ≤ m - 1) ∧
    (∀ out u', generateBlogPost w m t = (out, u') →
      u'.writing_calls ≤ m) := by
  refine ⟨fun c i t' hi => makeRevisionDecision_stops_at_cap c i m t' hi, ?_, ?_⟩
  · intro res u' h
    rw [generateBlogPost] at h
    by_cases ht : pyFalsyStr w.topic = true
    · rw [if_pos ht] at h
      exact absurd h (by simp)
    · rw [if_neg (by rw [Bool.not_eq_true] at ht; rw [ht]; simp)] at h
      by_cases ha : w.agentsProvided = true
      · rw [if_neg (by rw [ha]; simp)] at h
        cases hres : delegateResearch w.topic (researchTopic w.researchRun) with
        | retry msg =>
          rw [hres] at h
          exact absurd h (by simp)
        | raised e =>
          rw [hres] at h
          simp only [Prod.mk.injEq] at h
          exact absurd h.1 (handleWorkflowError_ne_completed _ _ _)
        | ok research =>
          rw [hres] at h
          dsimp only at h
          cases hw : delegateWriting research.topic
              (createBlogDraft research.topic w.initialWriteRun) with
          | retry msg =>
            rw [hw] at h
            exact absurd h (by simp)
          | raised e =>
            rw [hw] at h
            simp only [Prod.mk.injEq] at h
            exact absurd h.1 (handleWorkflowError_ne_completed _ _ _)
          | ok draft =>
            rw [hw] at h
            have hb := revisionCycle_revs_le w m t (m + 1) 1 0 draft research
              _ res u' h
            omega
      · rw [if_pos (by rw [Bool.not_eq_true] at ha; rw [ha]; simp)] at h
        exact absurd h (by simp)
  · intro out u' h
    rw [generateBlogPost] at h
    by_cases ht : pyFalsyStr w.topic = true
    · rw [if_pos ht] at h
      have hu := congrArg Prod.snd h
      simp only at hu
      rw [← hu]
      exact Nat.le_trans (by simp) hm
    · rw [if_neg (by rw [Bool.not_eq_true] at ht; rw [ht]; simp)] at h
      by_cases ha : w.agentsProvided = true
      · rw [if_neg (by rw [ha]; simp)] at h
        cases hres : delegateResearch w.topic (researchTopic w.researchRun) with
        | retry msg =>
          rw [hres] at h
          have hu := congrArg Prod.snd h
          simp only at hu
          rw [← hu]
          exact Nat.le_trans (by simp [incResearchCall]) hm
        | raised e =>
          rw [hres] at h
          have hu := congrArg Prod.snd h
          simp only at hu
          rw [← hu]
          exact Nat.le_trans (by simp [incResearchCall]) hm
        | ok research =>
          rw [hres] at h
          dsimp only at h
          cases hw : delegateWriting research.topic
              (createBlogDraft research.topic w.initialWriteRun) with
          | retry msg =>
            rw [hw] at h
            have hu := congrArg Prod.snd h
            simp only at hu
            rw [← hu]
            simp only [incWritingCall, addResearchTokens, incResearchCall]
            omega
          | raised e =>
            rw [hw] at h
            have hu := congrArg Prod.snd h
            simp only at hu
            rw [← hu]
            simp only [incWritingCall, addResearchTokens, incResearchCall]
            omega
          | ok draft =>
            rw [hw] at h
            have hu := congrArg Prod.snd h
            simp only at hu
            rw [← hu]
            have hb := revisionCycle_writes_le w m t (m + 1) 1 0 draft research
              (addWritingTokens
                (incWritingCall (addResearchTokens (incResearchCall
                  ⟨0, 0, 0, 0, 0, 0⟩) research)) draft)
            simp only [addWritingTokens, incWritingCall, addResearchTokens,
              incResearchCall] at hb ⊢
            omega
      · rw [if_pos (by rw [Bool.not_eq_true] at ha; rw [ha]; simp)] at h
        have hu := congrArg Prod.snd h
        simp only at hu
        rw [← hu]
        exact Nat.le_trans (by simp) hm

/-- Critique with one moderate item, quality 3, driving a revision. -/
def moderateCritique : CritiqueOutput :=
  { overall_quality := 3
    feedback_items := [⟨"intro", "flat opening", "add a hook", CritiqueSeverity.moderate⟩]
    approval_status := .needs_revision
    summary_feedback := "needs work" }

/-- Raw revised draft returned by the second writing call. -/
def okDraftRaw2 : BlogDraft := ⟨"T2", "I2", ["B2"], "C2", 0⟩

/-- Inputs whose critique keeps demanding revision, exercising the
max-iteration stop with an effectively unreachable threshold. -/
def revisingInputs : WorkflowInputs :=
  { topic := "ai"
    agentsProvided := true
    researchRun := .ok okResearch
    initialWriteRun := .ok okDraftRaw
    critiqueRun := fun _ => .ok moderateCritique
    reviseRun := fun _ => .ok okDraftRaw2 }

set_option maxRecDepth 8000 in
/-- Witness for C2: the spec's boundary scenario — cap 2, near-unreachable
threshold — stops through the max-iteration rule with one revision and two
writing calls. -/
theorem workflow_iteration_bound_witness :
    (makeRevisionDecision moderateCritique 2 2 10).should_revise = false ∧
    (⟨⟨"T2", "I2", ["B2"], "C2", 4⟩, okResearch, 1, 3⟩ :
      BlogGenerationResult).revision_count ≤ 2 - 1 ∧
    (⟨1, 2, 2, 40, 5, 1⟩ : UsageTracking).writing_calls ≤ 2 :=
  ⟨(workflow_iteration_bound revisingInputs 2 10 (by decide)).1
      moderateCritique 2 10 (by decide),
    (workflow_iteration_bound revisingInputs 2 10 (by decide)).2.1
      ⟨⟨"T2", "I2", ["B2"], "C2", 4⟩, okResearch, 1, 3⟩
      ⟨1, 2, 2, 40, 5, 1⟩ (by decide),
    (workflow_iteration_bound revisingInputs 2 10 (by decide)).2.2
      (.completed ⟨⟨"T2", "I2", ["B2"], "C2", 4⟩, okResearch, 1, 3⟩)
      ⟨1, 2, 2, 40, 5, 1⟩ (by decide)⟩
